import Mathlib

/-!
# Verification of the AicClient camera protocol client

Shallow embedding of `src/camera/AicClient.cpp` (an Android emulated-camera
protocol client over a loopback TCP socket) together with proofs about the
claims of the specification.

Modelling conventions:

* Bytes are `Nat` values (the value of the `char`/`uint8_t`); byte buffers and
  TCP streams are `List Nat`.  The stream passed to `receiveMessage` is the
  entire sequence of bytes the peer sends before closing the connection.
* `read(fd, buf, n)` is modelled as returning `min n avail` bytes where
  `avail` is what remains of the stream (a blocking socket read that always
  delivers the data that is still in flight, returning `0` exactly at end of
  stream).  Following the Linux kernel, a read count larger than
  `MAX_RW_COUNT = 0x7ffff000` is truncated to `MAX_RW_COUNT`.  Modelled reads
  do not themselves fail, so `errno` stays `0` and the `errno ? errno : EIO`
  idiom of the source yields `EIO`.
* C machine integers are modelled with explicit wrap-around arithmetic:
  `wrap32` is the value stored in a 32-bit `int` (two's complement, what gcc
  does on the target), `toSizeT` is conversion of a C integer value to the
  64-bit unsigned `size_t`, and `sub64` is `size_t` subtraction.
* `strtol(s, NULL, 16)` is modelled faithfully to the C library used on the
  target (bionic/glibc): leading whitespace, an optional sign, an optional
  `0x` prefix, then hex digits; the value is clamped to `long` range and
  `errno` is set (only) on range overflow.
* `malloc` success is a boolean parameter; buffer ownership is tracked by the
  `allocs`/`frees` counters and the returned `Option` payload (a `none`
  output models the `*data = NULL` written by the source).
-/

namespace AicClient

/-! ## Status codes (POSIX errno values used by the source) -/

def NO_ERROR : Nat := 0

def EINVAL : Nat := 22

def EIO : Nat := 5

def ENOMEM : Nat := 12

/-! ## Machine integer arithmetic -/

/-- `2^31`, the magnitude bound of a 32-bit `int`. -/
def I32 : Int := 2147483648

/-- `2^32`. -/
def W32 : Int := 4294967296

/-- `2^64`, one past the largest `size_t` value. -/
def W64 : Int := 18446744073709551616

/-- `2^64` as a natural number. -/
def N64 : Nat := 18446744073709551616

/-- Largest value of a 64-bit `long`. -/
def LONG_MAX : Int := 9223372036854775807

/-- Smallest value of a 64-bit `long`. -/
def LONG_MIN : Int := -9223372036854775808

/-- The Linux kernel truncates every `read` count to this many bytes
(`MAX_RW_COUNT = INT_MAX & PAGE_MASK = 0x7ffff000`). -/
def MAX_RW_COUNT : Nat := 2147479552

/-- The value stored in a 32-bit two's-complement `int`: reduce into
`[-2^31, 2^31)`. -/
def wrap32 (x : Int) : Int := (x + I32) % W32 - I32

/-- Conversion of a C integer value to `size_t` (64-bit unsigned):
reduction modulo `2^64`, as a natural number. -/
def toSizeT (x : Int) : Nat := (x % W64).toNat

/-- `size_t` subtraction `a - b` (wrap-around modulo `2^64`), for
`a b < 2^64`. -/
def sub64 (a b : Nat) : Nat := (a + N64 - b) % N64

/-! ## The strtol(str, NULL, 16) model -/

/-- C `isspace` on a byte. -/
def isSpaceC (c : Nat) : Bool := decide (c = 32 ∨ (9 ≤ c ∧ c ≤ 13))

/-- Hexadecimal digit test on a byte (`0-9`, `a-f`, `A-F`). -/
def isHexDigitN (c : Nat) : Bool :=
  decide ((48 ≤ c ∧ c ≤ 57) ∨ (97 ≤ c ∧ c ≤ 102) ∨ (65 ≤ c ∧ c ≤ 70))

/-- Value of a hexadecimal digit byte. -/
def hexVal (c : Nat) : Nat :=
  if c ≤ 57 then c - 48 else if c ≤ 70 then c - 55 else c - 87

/-- Skip leading whitespace, as `strtol` does. -/
def skipSpaces : List Nat → List Nat
  | [] => []
  | c :: r => if isSpaceC c then skipSpaces r else c :: r

/-- The maximal run of leading hexadecimal digits, as digit values. -/
def takeHexDigits : List Nat → List Nat
  | [] => []
  | c :: r => if isHexDigitN c then hexVal c :: takeHexDigits r else []

/-- Accumulate digit values into a number (the `strtol` accumulation loop). -/
def hexValue : List Nat → Nat → Nat
  | [], a => a
  | d :: ds, a => hexValue ds (a * 16 + d)

/-- Does the list start with a hexadecimal digit? -/
def hexLead : List Nat → Bool
  | [] => false
  | c :: _ => isHexDigitN c

/-- Strip an optional `0x`/`0X`, which `strtol` base 16 consumes only when a
hexadecimal digit follows. -/
def strip0x (l : List Nat) : List Nat :=
  match l with
  | c0 :: c1 :: r =>
    if c0 = 48 ∧ (c1 = 120 ∨ c1 = 88) ∧ hexLead r then r else l
  | _ => l

/-- The digits part of `strtol(s, NULL, 16)` after sign handling. -/
def hexBody (l : List Nat) : Int := (hexValue (takeHexDigits (strip0x l)) 0 : Int)

/-- The mathematically exact (unclamped) value `strtol(s, NULL, 16)`
accumulates: optional whitespace, optional sign, optional `0x`, then the
maximal run of hexadecimal digits (an empty run yields `0`). -/
def strtolHexRaw (s : List Nat) : Int :=
  match skipSpaces s with
  | [] => 0
  | c :: r =>
    if c = 45 then -(hexBody r)
    else if c = 43 then hexBody r
    else hexBody (c :: r)

/-- Whether `strtol(s, NULL, 16)` sets `errno = ERANGE`.  (This is the only
case in which the C library used on the target sets `errno`; in particular an
unparsable string leaves `errno` untouched and yields `0`.) -/
def strtolErange (s : List Nat) : Bool :=
  decide (strtolHexRaw s < LONG_MIN ∨ LONG_MAX < strtolHexRaw s)

/-- The value returned by `strtol(s, NULL, 16)` (clamped to `long`). -/
def strtolHex (s : List Nat) : Int :=
  if strtolHexRaw s < LONG_MIN then LONG_MIN
  else if LONG_MAX < strtolHexRaw s then LONG_MAX
  else strtolHexRaw s

/-! ## AicClient::receiveMessage -/

/-- How the payload read loop of `receiveMessage` ends: `success` is the
`return NO_ERROR` inside the loop (when `payload_read == payload_size`),
`exit` is falling out of the loop because `read` returned `≤ 0`. -/
inductive LoopOut where
  | success (buf : List Nat)
  | exit (buf : List Nat) (readN : Int)
deriving DecidableEq

/-- The payload read loop of `receiveMessage`:

```c
int payload_read = 0;
int payload_left = payload_size;
char *ptr = (char *)*data;
while ((rd_res = read(mSocketFD, ptr, payload_left)) > 0) {
    payload_left -= rd_res;
    payload_read += rd_res;
    ptr += rd_res;
    if (static_cast<size_t>(payload_read) == payload_size) {
        *data_size = payload_size;
        return NO_ERROR;
    }
}
```

`left` and `readN` are the 32-bit `int` values of `payload_left` and
`payload_read`; `size` is the `size_t` `payload_size`; `buf` is the content
written into the allocated buffer so far.  The `read` count is the `int`
`payload_left` converted to `size_t`, truncated by the kernel to
`MAX_RW_COUNT`, and at most the bytes remaining in the stream.  `fuel` only
bounds the number of iterations; every iteration consumes at least one
stream byte, so any `fuel > stream.length` is enough for the fuel-out branch
to be unreachable. -/
def payloadLoop : Nat → List Nat → Int → Int → Nat → List Nat → LoopOut
  | 0, _, _, readN, _, buf => .exit buf readN
  | fuel + 1, stream, left, readN, size, buf =>
    let rd := min (min (toSizeT left) MAX_RW_COUNT) stream.length
    if 0 < rd then
      let readN' := wrap32 (readN + (rd : Int))
      let buf' := buf ++ stream.take rd
      if toSizeT readN' = size then .success buf'
      else payloadLoop fuel (stream.drop rd) (wrap32 (left - (rd : Int))) readN' size buf'
    else .exit buf readN

/-- Result of `AicClient::receiveMessage(void** data, size_t* data_size)`.
`data = none` models `*data == NULL`; `allocs`/`frees` count the `malloc`
and `free` calls the function performed, so `allocs = frees` together with
`data = none` says no allocated buffer is reachable or leaked. -/
structure RecvResult where
  status : Nat
  data : Option (List Nat)
  dataSize : Nat
  allocs : Nat
  frees : Nat
deriving DecidableEq

/-- `AicClient::receiveMessage`, lines 136-199 of the source.  `connected`
models `mSocketFD >= 0`; `mallocOk` models the success of the single
`malloc`; `stream` is the byte sequence the peer sends before closing.

Reading the source top to bottom: the first branch is the
`mSocketFD < 0` check; the second is
`rd_res = read(mSocketFD, payload_size_str, 8); if (rd_res != 8)`; the
third is `errno = 0; payload_size = strtol(...); if (errno)`; the fourth is
`*data = malloc(payload_size); if (*data == NULL)`.  Throughout,
`toSizeT (strtolHex (stream.take 8))` is the `size_t` local
`payload_size`. -/
def receiveMessage (connected mallocOk : Bool) (stream : List Nat) : RecvResult :=
  if !connected then ⟨EINVAL, none, 0, 0, 0⟩
  else if min 8 stream.length ≠ 8 then ⟨ EIO, none, 0, 0, 0⟩
  else if strtolErange (stream.take 8) then ⟨ EIO, none, 0, 0, 0⟩
  else if !mallocOk then ⟨ENOMEM, none, 0, 0, 0⟩
  else
    match payloadLoop ((stream.drop 8).length + 1) (stream.drop 8)
        (wrap32 ((toSizeT (strtolHex (stream.take 8)) : Nat) : Int)) 0
        (toSizeT (strtolHex (stream.take 8))) [] with
    | .success buf => ⟨NO_ERROR, some buf, toSizeT (strtolHex (stream.take 8)), 1, 0⟩
    | .exit buf readN =>
      if toSizeT readN ≠ toSizeT (strtolHex (stream.take 8)) then ⟨ EIO, none, 0, 1, 1⟩
      else ⟨NO_ERROR, some buf, 0, 1, 0⟩

/-! ## The 8-hex-digit length encoding of the wire protocol -/

/-- Result of the frame decoding: status, the caller's two buffers after the
call, and the recorded `size_t` subtractions. -/
structure FrameResult where
  status : Nat
  vbuf : List Nat
  pbuf : List Nat
  subs : List (Nat × Nat)
deriving DecidableEq

/-- The preview-frame block of `queryFrame` (source lines 401-411), entered
with running offset `off` and the buffers as the video block left them. -/
def frameStage2 (reply : List Nat) (rds : Nat) (preq : Bool) (psize : Nat)
    (vbuf pbuf : List Nat) (off : Nat) (subs : List (Nat × Nat)) : FrameResult :=
  if preq && (psize != 0) then
    if psize ≤ sub64 rds off then
      ⟨NO_ERROR, vbuf, (reply.drop off).take psize ++ pbuf.drop psize, subs ++ [(rds, off)]⟩
    else ⟨EINVAL, vbuf, pbuf, subs ++ [(rds, off)]⟩
  else ⟨NO_ERROR, vbuf, pbuf, subs⟩

/-- The reply decoding of `queryFrame` (source lines 386-413): video block
first (lines 390-400), then the preview block.  `rds` (`mReplyDataSize`) is
the length of the reply payload. -/
def queryFrameCopy (reply : List Nat) (vreq preq : Bool) (vsize psize : Nat)
    (vbuf pbuf : List Nat) : FrameResult :=
  let rds := reply.length
  if vreq && (vsize != 0) then
    if vsize ≤ sub64 rds 0 then
      frameStage2 reply rds preq psize (reply.take vsize ++ vbuf.drop vsize) pbuf vsize
        [(rds, 0)]
    else ⟨EINVAL, vbuf, pbuf, [(rds, 0)]⟩
  else frameStage2 reply rds preq psize vbuf pbuf 0 []

/-- `CameraAicClient::queryFrame` after the query exchange: on a failed query
(`getCompletionStatus() != NO_ERROR`) it returns that status with the
buffers untouched; otherwise it decodes the reply payload. -/
def queryFrame (queryOk : Bool) (failStatus : Nat) (reply : List Nat)
    (vreq preq : Bool) (vsize psize : Nat) (vbuf pbuf : List Nat) : FrameResult :=
  if !queryOk then ⟨failStatus, vbuf, pbuf, []⟩
  else queryFrameCopy reply vreq preq vsize psize vbuf pbuf

/-! ## CameraAicClient::queryInfo -/

/-- Outcome of `queryInfo`: either a normal return carrying the status and
what was stored through `*p_info_string` (`none` = nothing was stored), or a
dereference of a null pointer (undefined behaviour / crash). -/
inductive InfoOutcome where
  | ret (status : Nat) (written : Option (List Nat))
  | nullDeref
deriving DecidableEq

/-- The copy made by `snprintf(*p_info_string, size + 1, "%s", mReplyData)`:
the reply text up to its first NUL byte (at most `size` bytes fit), plus the
terminating NUL. -/
def snprintfCopy (src : List Nat) : List Nat :=
  src.takeWhile (fun c => decide (c ≠ 0)) ++ [0]

/-- `CameraAicClient::queryInfo(char **p_info_string)`, source lines 298-327.
`pNull` models `p_info_string == NULL` (the source only logs this and keeps
going); `queryOk` models `doQuery` succeeding with `isQuerySucceeded()`;
`failStatus` is `getCompletionStatus()` on the failure path; `replyData` is
the reply payload `mReplyData` (its length is `mReplyDataSize`). -/
def queryInfo (pNull queryOk : Bool) (failStatus : Nat) (replyData : List Nat)
    (mallocOk : Bool) : InfoOutcome :=
  if !queryOk then .ret failStatus none
  else if replyData.length = 0 then .ret EINVAL none
  else if pNull then .nullDeref    -- *p_info_string = (char *)malloc(...) with p_info_string == NULL
  else if !mallocOk then .ret ENOMEM none
  else .ret NO_ERROR (some (snprintfCopy replyData))

/-! ## CameraAicClient::queryStart -/

/-- The `int` value that `%d` prints when handed a `uint32_t` argument: the
two's-complement reinterpretation of the 32-bit value. -/
def int32OfUInt (n : Nat) : Int :=
  if n % 4294967296 < 2147483648 then (n % 4294967296 : Int)
  else (n % 4294967296 : Int) - 4294967296

/-- The command string `queryStart` builds (source lines 335-337):
`snprintf(query_str, sizeof(query_str), "%s dim=%dx%d pix=%d", mQueryStart,
width, height, pixel_format)`.  For in-range arguments the string is at most
49 characters, far below the 256-byte buffer, so `snprintf` truncation never
occurs and is not modelled. -/
def queryStartString (width height : Int) (pixel_format : Nat) : String :=
  "start dim=" ++ toString width ++ "x" ++ toString height ++ " pix="
    ++ toString (int32OfUInt pixel_format)

/-- The command string as the specification's grammar words it: width,
height and the (unsigned 32-bit) pixel format each encoded as its decimal
integer value.  Stated from the spec, for comparison with
`queryStartString`. -/
def startStringSpec (width height : Int) (pixel_format : Nat) : String :=
  "start dim=" ++ toString width ++ "x" ++ toString height ++ " pix="
    ++ toString pixel_format

/-! ## AicClient::connectClient / disconnectClient -/

/-- The state of an `AicClient`: its socket handle `mSocketFD`
(`-1` when disconnected). -/
structure ClientState where
  mSocketFD : Int
deriving DecidableEq

/-- Result of `connectClient`: the returned status, the client state after
the call, and the file descriptors created (by `socket`) and closed (by
`close`) during the call. -/
structure ConnectResult where
  status : Nat
  state : ClientState
  created : List Int
  closed : List Int
deriving DecidableEq

/-- `AicClient::connectClient(const int local_srv_port)`, source lines
62-106.  The environment is modelled by `socketRet` (the return of
`socket(AF_INET, SOCK_STREAM, 0)`, a fresh fd or `-1`), `socketErrno`
(`errno` after a failed `socket`), `connectOk` (whether the TCP `connect`
succeeds) and `connectErrno` (`errno` after a failed `connect`). -/
def connectClient (s : ClientState) (socketRet : Int) (socketErrno : Nat)
    (connectOk : Bool) (connectErrno : Nat) : ConnectResult :=
  if 0 ≤ s.mSocketFD then ⟨EINVAL, s, [], []⟩
  else
    -- mSocketFD = socket(AF_INET, SOCK_STREAM, 0);
    if socketRet < 0 then
      ⟨if socketErrno ≠ 0 then socketErrno else EINVAL, ⟨socketRet⟩, [], []⟩
    else if !connectOk then
      -- connect(...) failed: return errno, mSocketFD keeps the new socket
      ⟨if connectErrno ≠ 0 then connectErrno else EINVAL, ⟨socketRet⟩, [socketRet], []⟩
    else ⟨NO_ERROR, ⟨socketRet⟩, [socketRet], []⟩

/-- `AicClient::disconnectClient()`, source lines 108-116: returns the new
state and the list of descriptors closed. -/
def disconnectClient (s : ClientState) : ClientState × List Int :=
  if 0 ≤ s.mSocketFD then (⟨-1⟩, [s.mSocketFD]) else (s, [])

/-! ## Arithmetic helper lemmas -/

theorem sub64_zero {a : Nat} (h : a < N64) : sub64 a 0 = a := by
  simp only [sub64, N64] at *; omega

theorem sub64_of_le {a b : Nat} (h1 : b ≤ a) (h2 : a < N64) : sub64 a b = a - b := by
  simp only [sub64, N64] at *; omega

/-- Claim C1: if `queryFrame` is asked for a video frame of `vsize > 0` bytes
and the reply payload is shorter than `vsize`, it returns `EINVAL` and both
caller buffers are untouched; if the reply payload is exactly
`vsize + psize` bytes, the video buffer receives bytes `[0, vsize)` and the
preview buffer bytes `[vsize, vsize + psize)` — adjacent, non-overlapping
ranges that reassemble the reply; and a preview segment found insufficient
is never partially copied. -/
theorem c1_frame_reply_segments (reply vbuf pbuf : List Nat) (vsize psize : Nat)
    (hr : reply.length < N64) :
    (0 < vsize → reply.length < vsize →
      queryFrame true 0 reply true true vsize psize vbuf pbuf
        = ⟨EINVAL, vbuf, pbuf, [(reply.length, 0)]⟩) ∧
    (0 < psize → vsize ≤ reply.length → reply.length < vsize + psize →
      (queryFrame true 0 reply true true vsize psize vbuf pbuf).status = EINVAL ∧
      (queryFrame true 0 reply true true vsize psize vbuf pbuf).pbuf = pbuf) ∧
    (vbuf.length = vsize → pbuf.length = psize → reply.length = vsize + psize →
      (queryFrame true 0 reply true true vsize psize vbuf pbuf).status = NO_ERROR ∧
      (queryFrame true 0 reply true true vsize psize vbuf pbuf).vbuf = reply.take vsize ∧
      (queryFrame true 0 reply true true vsize psize vbuf pbuf).pbuf
        = (reply.drop vsize).take psize ∧
      (queryFrame true 0 reply true true vsize psize vbuf pbuf).vbuf
        ++ (queryFrame true 0 reply true true vsize psize vbuf pbuf).pbuf = reply) := by
  refine ⟨?_, ?_, ?_⟩
  · intro hv hshort
    have hvne : (vsize != 0) = true := by simpa using Nat.pos_iff_ne_zero.mp hv
    simp only [queryFrame, queryFrameCopy, Bool.not_true, Bool.false_eq_true, if_false,
      hvne, Bool.and_self, if_true, sub64_zero hr]
    rw [if_neg (by omega)]
  · intro hp hvle hshort
    by_cases hv : vsize = 0
    · subst hv
      have hpne : (psize != 0) = true := by simpa using Nat.pos_iff_ne_zero.mp hp
      simp only [queryFrame, queryFrameCopy, frameStage2, Bool.not_true, Bool.false_eq_true,
        if_false, bne_self_eq_false, Bool.and_false, hpne, Bool.and_self, if_true,
        sub64_zero hr]
      rw [if_neg (by omega)]
      exact ⟨rfl, rfl⟩
    · have hvne : (vsize != 0) = true := by simpa using hv
      have hpne : (psize != 0) = true := by simpa using Nat.pos_iff_ne_zero.mp hp
      simp only [queryFrame, queryFrameCopy, frameStage2, Bool.not_true, Bool.false_eq_true,
        if_false, hvne, hpne, Bool.and_self, if_true, sub64_zero hr]
      rw [if_pos hvle, if_neg (by rw [sub64_of_le hvle hr]; omega)]
      exact ⟨rfl, rfl⟩
  · intro hvl hpl hlen
    by_cases hv : vsize = 0
    · subst hv
      have hvb : vbuf = [] := List.length_eq_zero.mp hvl
      by_cases hp : psize = 0
      · subst hp
        have hpb : pbuf = [] := List.length_eq_zero.mp hpl
        have hre : reply = [] := List.length_eq_zero.mp (by omega)
        subst hvb hpb hre
        simp [queryFrame, queryFrameCopy, frameStage2]
      · have hpne : (psize != 0) = true := by simpa using hp
        subst hvb
        simp only [queryFrame, queryFrameCopy, frameStage2, Bool.not_true, Bool.false_eq_true,
          if_false, bne_self_eq_false, Bool.and_false, hpne, Bool.and_self, if_true,
          sub64_zero hr]
        rw [if_pos (by omega)]
        refine ⟨rfl, rfl, ?_, ?_⟩ <;>
          simp [List.drop_nil, List.take_length, ← hpl, hlen, List.take_of_length_le,
            List.drop_eq_nil_of_le]
    · have hvne : (vsize != 0) = true := by simpa using hv
      have hvle : vsize ≤ reply.length := by omega
      by_cases hp : psize = 0
      · subst hp
        have hpb : pbuf = [] := List.length_eq_zero.mp hpl
        subst hpb
        simp only [queryFrame, queryFrameCopy, frameStage2, Bool.not_true, Bool.false_eq_true,
          if_false, hvne, Bool.and_self, if_true, bne_self_eq_false, Bool.and_false,
          sub64_zero hr]
        rw [if_pos hvle]
        refine ⟨rfl, ?_, ?_, ?_⟩ <;>
          simp [← hvl, List.drop_length, List.take_length, List.take_of_length_le,
            List.drop_eq_nil_of_le, hlen, List.take_append_drop]
      · have hpne : (psize != 0) = true := by simpa using hp
        simp only [queryFrame, queryFrameCopy, frameStage2, Bool.not_true, Bool.false_eq_true,
          if_false, hvne, hpne, Bool.and_self, if_true, sub64_zero hr]
        rw [if_pos hvle, if_pos (by rw [sub64_of_le hvle hr]; omega)]
        have h1 : vbuf.drop vsize = [] := List.drop_eq_nil_of_le (by omega)
        have h2 : pbuf.drop psize = [] := List.drop_eq_nil_of_le (by omega)
        have h3 : (reply.take vsize).length = vsize := by
          rw [List.length_take]; omega
        refine ⟨rfl, by simp [h1], by simp [h2], ?_⟩
        simp only [h1, h2, List.append_nil]
        have h4 : (reply.drop vsize).take psize = reply.drop vsize := by
          rw [List.take_of_length_le (by rw [List.length_drop]; omega)]
        rw [h4, List.take_append_drop]

/-- Witness for C1 at concrete inputs: a 1-byte reply cannot fill a 2-byte
video request (buffers untouched); a 2-byte reply cannot also hold a 3-byte
preview; a 3-byte reply exactly fills video 2 + preview 1. -/
theorem c1_frame_reply_segments_witness :
    queryFrame true 0 [1] true true 2 0 [9, 9] [] = ⟨EINVAL, [9, 9], [], [(1, 0)]⟩ ∧
    (queryFrame true 0 [1, 2] true true 2 3 [9, 9] [8, 8, 8]).status = EINVAL ∧
    (queryFrame true 0 [1, 2, 3] true true 2 1 [9, 9] [8]).status = NO_ERROR := by
  refine ⟨?_, ?_, ?_⟩
  · exact (c1_frame_reply_segments [1] [9, 9] [] 2 0 (by norm_num [N64])).1
      (by norm_num) (by norm_num)
  · exact ((c1_frame_reply_segments [1, 2] [9, 9] [8, 8, 8] 2 3 (by norm_num [N64])).2.1
      (by norm_num) (by norm_num) (by norm_num)).1
  · exact ((c1_frame_reply_segments [1, 2, 3] [9, 9] [8] 2 1 (by norm_num [N64])).2.2
      (by norm_num) (by norm_num) (by norm_num)).1

/-! ## Claim C3: the size_t subtraction in queryFrame never wraps -/

/-- Claim C3: whenever `queryFrame` computes `mReplyDataSize - cur_offset`
(in `size_t` arithmetic), the offset is at most the reply size, so the
subtraction equals the true remaining byte count and every insufficiency
comparison is over the non-wrapped value. -/
theorem c3_offset_never_wraps (queryOk : Bool) (fs : Nat) (reply vbuf pbuf : List Nat)
    (vreq preq : Bool) (vsize psize : Nat) (hr : reply.length < N64) :
    ∀ p ∈ (queryFrame queryOk fs reply vreq preq vsize psize vbuf pbuf).subs,
      p.2 ≤ p.1 ∧ sub64 p.1 p.2 = p.1 - p.2 := by
  intro p hp
  have key : p = (reply.length, 0) ∨ (p = (reply.length, vsize) ∧ vsize ≤ reply.length) := by
    cases queryOk with
    | false => simp [queryFrame] at hp
    | true =>
      simp only [queryFrame, queryFrameCopy, frameStage2, Bool.not_true, Bool.false_eq_true,
        if_false] at hp
      by_cases h1 : (vreq && (vsize != 0)) = true
      · rw [if_pos h1] at hp
        by_cases h2 : vsize ≤ sub64 reply.length 0
        · have h2' : vsize ≤ reply.length := by rwa [sub64_zero hr] at h2
          rw [if_pos h2] at hp
          by_cases h3 : (preq && (psize != 0)) = true
          · rw [if_pos h3] at hp
            by_cases h4 : psize ≤ sub64 reply.length vsize
            · rw [if_pos h4] at hp
              simp only [List.cons_append, List.nil_append, List.mem_cons,
                List.mem_singleton, List.not_mem_nil, or_false] at hp
              rcases hp with hp | hp
              · exact Or.inl hp
              · exact Or.inr ⟨hp, h2'⟩
            · rw [if_neg h4] at hp
              simp only [List.cons_append, List.nil_append, List.mem_cons,
                List.mem_singleton, List.not_mem_nil, or_false] at hp
              rcases hp with hp | hp
              · exact Or.inl hp
              · exact Or.inr ⟨hp, h2'⟩
          · rw [if_neg h3] at hp
            simp only [List.mem_singleton] at hp
            exact Or.inl hp
        · rw [if_neg h2] at hp
          simp only [List.mem_singleton] at hp
          exact Or.inl hp
      · rw [if_neg h1] at hp
        by_cases h3 : (preq && (psize != 0)) = true
        · rw [if_pos h3] at hp
          by_cases h4 : psize ≤ sub64 reply.length 0
          · rw [if_pos h4] at hp
            simp only [List.nil_append, List.mem_singleton] at hp
            exact Or.inl hp
          · rw [if_neg h4] at hp
            simp only [List.nil_append, List.mem_singleton] at hp
            exact Or.inl hp
        · rw [if_neg h3] at hp
          simp at hp
  rcases key with h | ⟨h, hle⟩
  · subst h
    refine ⟨Nat.zero_le _, ?_⟩
    rw [sub64_zero hr]
    omega
  · subst h
    exact ⟨hle, sub64_of_le hle hr⟩

/-- Witness for C3: on a 3-byte reply with video 2 and preview 1, the pair
`(3, 2)` is recorded and its subtraction is exact. -/
theorem c3_offset_never_wraps_witness :
    (3, 2) ∈ (queryFrame true 0 [1, 2, 3] true true 2 1 [9, 9] [8]).subs ∧
    (2 ≤ 3 ∧ sub64 3 2 = 3 - 2) := by
  have hmem : (3, 2) ∈ (queryFrame true 0 [1, 2, 3] true true 2 1 [9, 9] [8]).subs := by
    decide
  exact ⟨hmem, by
    have h := c3_offset_never_wraps true 0 [1, 2, 3] [9, 9] [8] true true 2 1
      (by norm_num [N64]) (3, 2) hmem
    exact h⟩

/-! ## Claim C2: an unparsable length prefix is accepted by the code -/

/-- Claim C2 (code bug): the reply prefix `"zzzzzzzz"` does not form a valid
hexadecimal number, yet `receiveMessage` returns `NO_ERROR` with a
successfully decoded zero-length payload, because `strtol` leaves `errno`
untouched when no conversion is performed, so the `if (errno)` check at
source lines 164-167 (the intended `ProtocolError` path, which would return
`EIO`) never fires. -/
theorem c2_unparsable_prefix_not_rejected :
    receiveMessage true true [122, 122, 122, 122, 122, 122, 122, 122]
      = ⟨NO_ERROR, some [], 0, 1, 0⟩ ∧ NO_ERROR ≠ EIO := by
  constructor <;> decide

/-! ## Claim C6: queryInfo with a null output pointer -/

/-- Claim C6 (code bug): with `p_info_string == NULL` and a successful
non-empty reply, `queryInfo` does not return `EINVAL` — the null check at
source lines 302-304 only logs and falls through, and line 319
(`*p_info_string = malloc(...)`) dereferences the null pointer. -/
theorem c6_null_info_pointer_crashes :
    queryInfo true true 0 [79, 75] true = InfoOutcome.nullDeref ∧
    queryInfo true true 0 [79, 75] true ≠ InfoOutcome.ret EINVAL none := by
  constructor <;> decide

/-! ## Claim C7: the queryStart command string -/

/-- Claim C7 counterexample: for `pixel_format = 2^31` the `%d` conversion
prints the signed 32-bit reinterpretation `-2147483648`, not the unsigned
decimal value `2147483648` the claim prescribes. -/
theorem c7_start_pix_signed_counterexample :
    queryStartString 1280 720 2147483648 ≠ startStringSpec 1280 720 2147483648 ∧
    queryStartString 1280 720 2147483648 = "start dim=1280x720 pix=-2147483648" := by
  constructor <;> decide

/-- Claim C7 (amended): for every width and height and every
`pixel_format < 2^31`, the built command string is exactly
`start dim=<width>x<height> pix=<pixel_format>` with each value in decimal;
for `pixel_format ≥ 2^31` the `%d` conversion prints the signed 32-bit
reinterpretation instead. -/
theorem c7_start_command_format (width height : Int) (pix : Nat)
    (h : pix < 2147483648) :
    queryStartString width height pix = startStringSpec width height pix := by
  have h2 : int32OfUInt pix = ((pix : Nat) : Int) := by
    unfold int32OfUInt
    rw [if_pos (by omega)]
    omega
  unfold queryStartString startStringSpec
  rw [h2]
  rfl

/-- Witness for C7 at the specification's own example. -/
theorem c7_start_command_format_witness :
    queryStartString 1280 720 842094169 = "start dim=1280x720 pix=842094169" := by
  rw [c7_start_command_format 1280 720 842094169 (by norm_num)]
  decide

/-! ## Claim C5: framing round-trip -/

/-- Claim C8: calling `connectClient` while a connection is live returns
`EINVAL` immediately, leaves the stored descriptor unchanged, creates no
socket and closes nothing. -/
theorem c8_connect_already_connected (s : ClientState) (fd : Int) (se : Nat)
    (ok : Bool) (ce : Nat) (h : 0 ≤ s.mSocketFD) :
    connectClient s fd se ok ce = ⟨EINVAL, s, [], []⟩ := by
  simp [connectClient, h]

/-- Witness for C8: a client holding fd 3. -/
theorem c8_connect_already_connected_witness :
    connectClient ⟨3⟩ 7 0 true 0 = ⟨EINVAL, ⟨3⟩, [], []⟩ :=
  c8_connect_already_connected ⟨3⟩ 7 0 true 0 (by decide)

/-! ## Claim C9: disconnect is idempotent -/

/-- Claim C9: `disconnectClient` on an already-disconnected client is a
no-op that closes nothing; after any disconnect the client is disconnected
(`mSocketFD < 0`); and a second disconnect equals the first (it changes
nothing and closes nothing). -/
theorem c9_disconnect_idempotent (s : ClientState) :
    (¬ 0 ≤ s.mSocketFD → disconnectClient s = (s, [])) ∧
    (0 ≤ s.mSocketFD → disconnectClient s = (⟨-1⟩, [s.mSocketFD])) ∧
    (disconnectClient s).1.mSocketFD < 0 ∧
    disconnectClient (disconnectClient s).1 = ((disconnectClient s).1, []) := by
  refine ⟨fun hc => by simp [disconnectClient, hc], fun hc => by simp [disconnectClient, hc],
    ?_, ?_⟩
  · by_cases h : 0 ≤ s.mSocketFD
    · simp only [disconnectClient, if_pos h]
      norm_num
    · simp only [disconnectClient, if_neg h]
      omega
  · by_cases h : 0 ≤ s.mSocketFD
    · simp only [disconnectClient, if_pos h]
      norm_num
    · simp only [disconnectClient, if_neg h]

/-- Witness for C9: a disconnected client (fd `-1`) and a connected client
(fd `5`). -/
theorem c9_disconnect_idempotent_witness :
    disconnectClient ⟨-1⟩ = (⟨-1⟩, []) ∧ disconnectClient ⟨5⟩ = (⟨-1⟩, [5]) :=
  ⟨(c9_disconnect_idempotent ⟨-1⟩).1 (by decide),
   (c9_disconnect_idempotent ⟨5⟩).2.1 (by decide)⟩

/-! ## Claim C10: a failed TCP connect leaves the socket stored -/

/-- Claim C10: when `socket` succeeds (fd `≥ 0`) but the TCP `connect`
fails, `connectClient` returns an error yet keeps the new descriptor in
`mSocketFD` (nothing is closed, the handle is not reset), so the client is
left looking connected and every later `connectClient` returns `EINVAL`
until `disconnectClient` is called. -/
theorem c10_connect_failure_retains_socket (s : ClientState) (fd : Int) (se ce : Nat)
    (h1 : s.mSocketFD < 0) (h2 : 0 ≤ fd) :
    (connectClient s fd se false ce).status ≠ NO_ERROR ∧
    (connectClient s fd se false ce).state = ⟨fd⟩ ∧
    (connectClient s fd se false ce).created = [fd] ∧
    (connectClient s fd se false ce).closed = [] ∧
    0 ≤ (connectClient s fd se false ce).state.mSocketFD ∧
    ∀ (fd2 : Int) (se2 : Nat) (ok2 : Bool) (ce2 : Nat),
      connectClient (connectClient s fd se false ce).state fd2 se2 ok2 ce2
        = ⟨EINVAL, (connectClient s fd se false ce).state, [], []⟩ := by
  have hc : connectClient s fd se false ce
      = ⟨if ce ≠ 0 then ce else EINVAL, ⟨fd⟩, [fd], []⟩ := by
    unfold connectClient
    rw [if_neg (by omega), if_neg (by omega)]
    simp
  rw [hc]
  refine ⟨?_, rfl, rfl, rfl, h2, ?_⟩
  · by_cases hce : ce = 0 <;> simp [hce, NO_ERROR, EINVAL]
  · intro fd2 se2 ok2 ce2
    unfold connectClient
    rw [if_pos h2]

/-- Witness for C10: disconnected client, fresh socket fd 3, `connect`
failing with `ECONNREFUSED` (111). -/
theorem c10_connect_failure_retains_socket_witness :
    (connectClient ⟨-1⟩ 3 0 false 111).status ≠ NO_ERROR ∧
    connectClient (connectClient ⟨-1⟩ 3 0 false 111).state 9 0 true 0
      = ⟨EINVAL, (connectClient ⟨-1⟩ 3 0 false 111).state, [], []⟩ := by
  have h := c10_connect_failure_retains_socket ⟨-1⟩ 3 0 111 (by decide) (by decide)
  exact ⟨h.1, h.2.2.2.2.2 9 0 true 0⟩

end AicClient

